import Mathlib

/-!
Verification of the procurement-risk-monitor scoring and inference engine.

The definitions below are a shallow embedding of the Python source:

* `src/app.py` — compliance rule engine (`detect_clear_errors`, per-record
  body), brand-pattern scan (`BRAND_PATTERNS` with `re.search`), action
  checklist (`_generate_action_checklist`), comparable-procurement finder
  (`_find_comparable_procurements`), and sector benchmark aggregator
  (`_compute_sector_benchmarks`);
* `src/scripts/pdf_report.py` — the five-dimension quality rubric
  (`compute_quality_assessment`).

Modelling conventions:

* Python floats are modelled as `ℚ` (all arithmetic in the source is
  decimal-literal comparisons, ratios of weights, and counts; no
  float-rounding behaviour is relied on by the source).
* Python `None`-able numbers become `Option ℚ`; a Python truthiness test
  `val and val > t` becomes `val ≠ none ∧ val ≠ some 0 ∧ t < val`
  (`valGt` below).
* Feature dictionaries carry one-hot indicators `sector_<s>` / `proc_<p>`
  derived upstream 1:1 from the record's sector / procedure; we embed the
  category itself, with `feat.get ("sector_" ++ s) == 1` iff
  `features.sector = s`.
* The upstream encoder stores `log_deadline_days = log10 (deadline days)`
  and `log_estimated_value = log (estimated value)`; the source only ever
  exponentiates these back (`10 ** x`, `np.exp x`) before comparing or
  aggregating.  Since `x ↦ 10 ^ x` is a strictly increasing bijection onto
  the positive reals with `10 ^ 0 = 1`, we embed the decoded quantities
  directly: field `deadline_days` holds the actual day count (the source
  guard `log_deadline_days > 0` becomes `1 < deadline_days`), and field
  `estimated_value` holds the decoded value.
* Findings and actions are embedded as structured payloads (rule id
  constructor plus the data interpolated into the source's message
  strings); the surrounding fixed prose of the messages is presentation
  only and is not re-stated.
-/

set_option maxRecDepth 10000

attribute [local semireducible] Rat.ofScientific Rat.add Rat.mul Rat.inv Rat.sub

/-- Clamp an integer score into `[0, 20]`, the source's
`max(0, min(20, score))`. -/
def clamp20 (x : ℤ) : ℤ := max 0 (min 20 x)

/-- Python truthiness test `val and val > t` for an optional number:
`None` and `0` are falsy. -/
def valGt (val : Option ℚ) (t : ℚ) : Bool :=
  match val with
  | none => false
  | some v => decide (v ≠ 0) && decide (t < v)

/-- Python truthiness of an optional number (`if value ...`): `None` and
`0` are falsy. -/
def valTruthy (v : Option ℚ) : Bool :=
  match v with
  | none => false
  | some x => decide (x ≠ 0)

/-- Case-insensitive character comparison (`re.IGNORECASE` / `str.lower`;
all strings exercised here are ASCII, where `Char.toLower` agrees with
Python). -/
def charEqCI (a b : Char) : Bool := a.toLower == b.toLower

/-- `matchesAt pat s` : the literal `pat` matches (case-insensitively) at
the head of `s`. -/
def matchesAt : List Char → List Char → Bool
  | [], _ => true
  | _ :: _, [] => false
  | p :: ps, c :: cs => charEqCI p c && matchesAt ps cs

/-- Case-insensitive substring test, Python `needle in hay.lower()` for a
lowercase ASCII `needle`. -/
def containsCI (hay needle : String) : Bool :=
  go needle.toList hay.toList
where
  go (n : List Char) : List Char → Bool
    | [] => matchesAt n []
    | c :: rest => matchesAt n (c :: rest) || go n rest

/-- Regex word character (`\w`): letters, digits, underscore (ASCII). -/
def wordCharB (c : Char) : Bool := c.isAlphanum || c == '_'

/-- A word boundary `\b` holds against an adjacent character `c?` (from
the viewpoint of a word character of the match) iff there is no adjacent
character or it is not a word character. -/
def boundaryB : Option Char → Bool
  | none => true
  | some c => !wordCharB c

/-- `re.search` for a pattern `\b<pat>\b` whose literal starts and ends
with word characters (every `\b…\b` entry of `BRAND_PATTERNS` does):
leftmost match, returning the matched slice of the subject. `prev` is the
character immediately before the current position. -/
def findWord (pat : List Char) (prev : Option Char) (s : List Char) :
    Option (List Char) :=
  if boundaryB prev && matchesAt pat s && boundaryB (s.drop pat.length).head? then
    some (s.take pat.length)
  else
    match s with
    | [] => none
    | c :: rest => findWord pat (some c) rest

/-- `re.search` for a pattern `\b<pat>` (no trailing boundary; the source
entry `\blitsents`). -/
def findStem (pat : List Char) (prev : Option Char) (s : List Char) :
    Option (List Char) :=
  if boundaryB prev && matchesAt pat s then
    some (s.take pat.length)
  else
    match s with
    | [] => none
    | c :: rest => findStem pat (some c) rest

/-- End position (exclusive, as an offset into `s`, shifted by `i`) of the
last match of literal `pat` inside `s` — the greedy `.*<pat>` tail. -/
def lastEndAux (pat : List Char) (s : List Char) (i : Nat) : Option Nat :=
  let here := if matchesAt pat s then some (i + pat.length) else none
  match s with
  | [] => here
  | _ :: rest =>
    match lastEndAux pat rest (i + 1) with
    | some e => some e
    | none => here

/-- `re.search` for a pattern `\b<p1>.*<p2>` (the source entry
`\bhooldus.*leping`): leftmost start where `p1` matches on a boundary and
`p2` occurs later; greedy `.*` extends to the last such occurrence.  The
titles scanned contain no newline, so `.` is unrestricted here. -/
def findSpan (p1 p2 : List Char) (prev : Option Char) (s : List Char) :
    Option (List Char) :=
  match (if boundaryB prev && matchesAt p1 s then
           lastEndAux p2 (s.drop p1.length) 0
         else none) with
  | some e => some (s.take (p1.length + e))
  | none =>
    match s with
    | [] => none
    | c :: rest => findSpan p1 p2 (some c) rest

/-- The three shapes of regular expression occurring in `BRAND_PATTERNS`. -/
inductive BrandPat where
  | word (s : String)
  | stem (s : String)
  | span (a b : String)
deriving DecidableEq

/-- Run one brand pattern against a title, returning the matched text
(`m.group(0)`). -/
def searchBrand (p : BrandPat) (title : List Char) : Option String :=
  match p with
  | .word w => (findWord w.toList none title).map List.asString
  | .stem w => (findStem w.toList none title).map List.asString
  | .span a b => (findSpan a.toList b.toList none title).map List.asString

/-- `BRAND_PATTERNS` from `src/app.py`, in source order. -/
def BRAND_PATTERNS : List BrandPat :=
  [.word "SAP", .word "Oracle", .word "Microsoft", .word "Salesforce",
   .word "VMware", .word "Cisco", .word "IBM", .word "Adobe",
   .word "Amazon", .word "AWS", .word "Google Cloud", .word "Azure",
   .word "Apple", .word "Dell", .word "HP", .word "Lenovo",
   .word "SharePoint", .word "Dynamics", .word "365",
   .word "AutoCAD", .word "ArcGIS", .word "Qlik", .word "Tableau",
   .stem "litsents", .span "hooldus" "leping"]

/-- The source's scan loop: try patterns in catalog order, stop at the
first pattern that matches anywhere in the title. -/
def firstBrandMatch : List BrandPat → List Char → Option String
  | [], _ => none
  | p :: ps, t =>
    match searchBrand p t with
    | some m => some m
    | none => firstBrandMatch ps t

/-- `is_price_only` as written in `detect_clear_errors`
(`src/app.py:740`). -/
def isPriceOnlyDetect (pw qw : ℚ) : Bool :=
  (decide (qw = 0) && decide (0 < pw)) ||
    (decide (0 < pw + qw) && decide (qw / (pw + qw) < 0.01))

/-- `is_price_only` as written in `_generate_action_checklist`
(`src/app.py:1070`). -/
def isPriceOnlyChecklist (pw qw : ℚ) : Bool :=
  (decide (qw = 0) && decide (0 < pw)) ||
    (decide (0 < pw + qw) && decide (qw / (pw + qw) < 0.01))

/-- `is_price_only` as written in `compute_quality_assessment`
(`src/scripts/pdf_report.py:802`). -/
def isPriceOnlyRubric (pw qw : ℚ) : Bool :=
  (decide (qw = 0) && decide (0 < pw)) ||
    (decide (0 < pw + qw) && decide (qw / (pw + qw) < 0.01))

/-- The single-branch price-only test of `_compute_sector_benchmarks`
(`src/app.py:1181-1183`). -/
def isPriceOnlyBenchmark (pw qw : ℚ) : Bool :=
  decide (0 < pw + qw) && decide (qw / (pw + qw) < 0.01)

/-- Buyer aggregate profile (the fields read by the engine). -/
structure BuyerProfile where
  procurement_count : ℕ
  single_bidder_rate : ℚ
  price_only_rate : ℚ
  vako_disputes : ℕ
deriving DecidableEq

/-- One row of the monthly dataframe, restricted to the fields read by
`detect_clear_errors`.  `price_weight` / `quality_weight` are the values
after the source's `or 0` null-guard. -/
structure ProcRow where
  price_weight : ℚ
  quality_weight : ℚ
  estimated_value : Option ℚ
  procedure_type : String
  contract_type : String
  buyer_name : String
  rhr_id : String
deriving DecidableEq

/-- A compliance issue: rule id as constructor, message payload as
arguments (the data interpolated into the source's detail f-string). -/
inductive Issue where
  | non_competitive_high_value (val : ℚ)
  | single_source_works_threshold (val : ℚ)
  | price_only_high_services (val : ℚ)
  | no_criteria
  | brand_name_restriction (matched : String) (titleTrunc : String)
  | low_competition_buyer (buyer : String) (sbr : ℚ) (count : ℕ)
  | price_only_disputed_buyer (buyer : String) (rate : ℚ) (disputes : ℕ)
  | missing_buyer
deriving DecidableEq

/-- The `rule_id` string attached to each finding. -/
def Issue.ruleId : Issue → String
  | .non_competitive_high_value _ => "non_competitive_high_value"
  | .single_source_works_threshold _ => "single_source_works_threshold"
  | .price_only_high_services _ => "price_only_high_services"
  | .no_criteria => "no_criteria"
  | .brand_name_restriction _ _ => "brand_name_restriction"
  | .low_competition_buyer _ _ _ => "low_competition_buyer"
  | .price_only_disputed_buyer _ _ _ => "price_only_disputed_buyer"
  | .missing_buyer => "missing_buyer"

/-- Procedure issues block of `detect_clear_errors` (`src/app.py:724-736`). -/
def procIssues (r : ProcRow) : List Issue :=
  (if (r.procedure_type == "neg-wo-call" || r.procedure_type == "oth-single")
      && valGt r.estimated_value 200000 then
     [Issue.non_competitive_high_value (r.estimated_value.getD 0)]
   else []) ++
  (if (r.procedure_type == "neg-wo-call" || r.procedure_type == "oth-single")
      && r.contract_type == "works" && valGt r.estimated_value 5000000 then
     [Issue.single_source_works_threshold (r.estimated_value.getD 0)]
   else [])

/-- Evaluation-criteria issues block of `detect_clear_errors`
(`src/app.py:738-749`). -/
def criteriaIssues (r : ProcRow) : List Issue :=
  (if isPriceOnlyDetect r.price_weight r.quality_weight
      && valGt r.estimated_value 500000 && r.contract_type == "services" then
     [Issue.price_only_high_services (r.estimated_value.getD 0)]
   else []) ++
  (if decide (r.price_weight = 0) && decide (r.quality_weight = 0)
      && (r.procedure_type == "open" || r.procedure_type == "restricted"
          || r.procedure_type == "neg-w-call") then
     [Issue.no_criteria]
   else [])

/-- Brand-name scan block of `detect_clear_errors` (`src/app.py:751-762`):
at most one finding, from the first matching pattern, quoting the matched
text and the title truncated to 120 characters. -/
def brandIssues (title : String) : List Issue :=
  if title == "" then []
  else
    match firstBrandMatch BRAND_PATTERNS title.toList with
    | some m => [Issue.brand_name_restriction m (title.take 120)]
    | none => []

/-- Buyer-pattern issues block of `detect_clear_errors`
(`src/app.py:764-777`).  Note the outer guard
`profile.get("procurement_count", 0) >= 5` over both rules. -/
def buyerIssues (buyer : String) : Option BuyerProfile → List Issue
  | none => []
  | some p =>
    if 5 ≤ p.procurement_count then
      (if decide ((0.6 : ℚ) ≤ p.single_bidder_rate)
          && decide (10 ≤ p.procurement_count) then
         [Issue.low_competition_buyer buyer p.single_bidder_rate p.procurement_count]
       else []) ++
      (if decide ((0.95 : ℚ) ≤ p.price_only_rate)
          && decide (2 ≤ p.vako_disputes) then
         [Issue.price_only_disputed_buyer buyer p.price_only_rate p.vako_disputes]
       else [])
    else []

/-- Data-quality issues block of `detect_clear_errors`
(`src/app.py:779-781`). -/
def dataIssues (buyer : String) : List Issue :=
  if buyer == "" then [Issue.missing_buyer] else []

/-- Per-record body of `detect_clear_errors` (`src/app.py:711-781`):
the five blocks in source order. -/
def detectRecordIssues (r : ProcRow) (profile : Option BuyerProfile)
    (title : String) : List Issue :=
  procIssues r ++ criteriaIssues r ++ brandIssues title
    ++ buyerIssues r.buyer_name profile ++ dataIssues r.buyer_name

/-- Feature fields read by `compute_quality_assessment`
(`src/scripts/pdf_report.py`).  `deadline_days` is the decoded deadline
length (the source stores its base-10 logarithm and recovers the days with
`10 ** log_deadline_days`; the source guard `log_deadline_days > 0` is
embedded as `1 < deadline_days`). -/
structure PdfFeatures where
  price_weight : ℚ
  quality_weight : ℚ
  tenders_received : ℤ
  has_green : Bool
  has_social : Bool
  has_innovation : Bool
  value_missing : Bool
  deadline_missing : Bool
  deadline_days : ℚ
deriving DecidableEq

/-- Dimension 1, Competition & Access (`src/scripts/pdf_report.py:760-787`). -/
def competitionScore (f : PdfFeatures) (procedure : String) : ℤ :=
  let s1 : ℤ :=
    if procedure == "open" then 10 + 5
    else if procedure == "restricted" then 10 + 3
    else if procedure == "neg-wo-call" || procedure == "oth-single" then 10 - 8
    else if procedure == "neg-w-call" then 10 - 2
    else 10
  let t := f.tenders_received
  let s2 :=
    if 5 ≤ t then s1 + 5
    else if 3 ≤ t then s1 + 3
    else if t = 1 ∧ t ≠ -1 then s1 - 5
    else s1
  clamp20 s2

/-- Dimension 2, Criteria Quality (`src/scripts/pdf_report.py:799-820`). -/
def criteriaQualityScore (pw qw : ℚ) (contract_type : String) : ℤ :=
  let total := pw + qw
  let s1 : ℤ :=
    if isPriceOnlyRubric pw qw then
      (if contract_type == "services" then 10 - 6 else 10 - 2)
    else if decide (0 < total) && decide ((0.3 : ℚ) ≤ qw / total) then 10 + 5
    else if decide (0 < total) && decide ((0.1 : ℚ) ≤ qw / total) then 10 + 2
    else 10
  let s2 := if decide (pw = 0) && decide (qw = 0) then s1 - 4 else s1
  clamp20 s2

/-- Dimension 3, Strategic Value (`src/scripts/pdf_report.py:832-852`). -/
def strategicScore (f : PdfFeatures) : ℤ :=
  let s1 : ℤ := 8 + (if f.has_green then 4 else 0)
    + (if f.has_social then 4 else 0) + (if f.has_innovation then 5 else 0)
  let s2 := if f.has_green || f.has_social || f.has_innovation then s1 else s1 - 3
  clamp20 s2

/-- Dimension 4, Transparency (`src/scripts/pdf_report.py:864-888`). -/
def transparencyScore (f : PdfFeatures) : ℤ :=
  let s1 : ℤ := if !f.value_missing then 12 + 3 else 12 - 4
  let s2 :=
    if !f.deadline_missing then
      (if decide ((1 : ℚ) < f.deadline_days) then
         (if decide ((30 : ℚ) ≤ f.deadline_days) then s1 + 3
          else if decide ((15 : ℚ) ≤ f.deadline_days) then s1 + 1
          else s1 - 3)
       else s1)
    else s1
  clamp20 s2

/-- Per-flag penalty of the Integrity & Governance dimension
(`src/scripts/pdf_report.py:904-908`). -/
def severityPenalty (sev : String) : ℤ :=
  if sev == "high" || sev == "HIGH" then 6
  else if sev == "medium" || sev == "MEDIUM" then 3
  else 0

/-- Dimension 5, Integrity & Governance
(`src/scripts/pdf_report.py:900-921`).  A flag is a
(name, description, severity) triple. -/
def integrityScore (flags : List (String × String × String))
    (bp : Option BuyerProfile) : ℤ :=
  let s1 : ℤ := 16 - flags.foldl (fun acc fl => acc + severityPenalty fl.2.2) 0
  let s2 :=
    match bp with
    | none => s1
    | some p =>
      let sa := if 3 ≤ p.vako_disputes then s1 - 3 else s1
      if decide ((0.5 : ℚ) < p.single_bidder_rate) then sa - 2 else sa
  clamp20 s2

/-- Result of `compute_quality_assessment`: the five dimension scores,
their sum, and the summary bracket sentence. -/
structure QualityAssessment where
  competition : ℤ
  criteria : ℤ
  strategic : ℤ
  transparency : ℤ
  integrity : ℤ
  overall : ℤ
  summary : String
deriving DecidableEq

/-- Summary sentence bracket (`src/scripts/pdf_report.py:934-941`). -/
def summaryFor (overall : ℤ) : String :=
  if 80 ≤ overall then
    "This procurement demonstrates strong practices across all dimensions."
  else if 60 ≤ overall then
    "Good foundation with specific areas for improvement identified below."
  else if 40 ≤ overall then
    "Several dimensions need attention. Review recommendations carefully."
  else
    "Significant improvements needed across multiple dimensions."

/-- `compute_quality_assessment` (`src/scripts/pdf_report.py:744-945`).
The `sector` argument is accepted but, as in the source, not used by any
score. -/
def computeQualityAssessment (f : PdfFeatures)
    (procedure contract_type sector : String) (bp : Option BuyerProfile)
    (flags : List (String × String × String)) : QualityAssessment :=
  let c1 := competitionScore f procedure
  let c2 := criteriaQualityScore f.price_weight f.quality_weight contract_type
  let c3 := strategicScore f
  let c4 := transparencyScore f
  let c5 := integrityScore flags bp
  let overall := c1 + c2 + c3 + c4 + c5
  { competition := c1, criteria := c2, strategic := c3, transparency := c4,
    integrity := c5, overall := overall, summary := summaryFor overall }

/-- Fields of a monthly dataframe record read by
`_generate_action_checklist`. -/
structure MonthlyRec where
  procedure_type : String
  contract_type : String
  sector : String
  estimated_value : Option ℚ
deriving DecidableEq

/-- Feature fields of one `features_dict` entry read by the app-side
helpers.  `sector` / `procedure` stand for the one-hot `sector_*` /
`proc_*` indicators, and `estimated_value` is the decoded
`exp(log_estimated_value)` (see the header note). -/
structure FeatRec where
  sector : String
  procedure : String
  value_missing : Bool
  estimated_value : ℚ
  price_weight : ℚ
  quality_weight : ℚ
deriving DecidableEq

/-- One `features_dict` entry: features plus the record-level fields read
by the app-side helpers. -/
structure AppRec where
  features : FeatRec
  buyer_name : String
  stage1_probability : ℚ
deriving DecidableEq

/-- Action texts of `_generate_action_checklist`, exactly as in the
source (the action text is the deduplication key). -/
def actLegalReview : String :=
  "Conduct pre-publication legal review of tender documents"

/-- Action text of the negotiated-procedure rule. -/
def actJustifyNegotiated : String :=
  "Document justification for negotiated procedure"

/-- Action text of the non-competitive exemption rule. -/
def actVerifyExemption : String :=
  "Verify exemption grounds for non-competitive procedure"

/-- Action text of the price-only services rule. -/
def actAddQuality : String :=
  "Consider adding quality criteria to evaluation"

/-- Action text of the quality-methodology rule. -/
def actQualityMethodology : String :=
  "Ensure quality criteria have detailed scoring methodology"

/-- Action text of the qualification-proportionality rule. -/
def actQualProportionality : String :=
  "Review qualification requirements for proportionality"

/-- Action text of the brand-specific requirements rule. -/
def actReplaceBrand : String :=
  "Replace brand-specific requirements with functional specifications"

/-- Action text of the subjective-criteria rule. -/
def actClarifySubjective : String :=
  "Clarify subjective evaluation criteria"

/-- Action text of the market-engagement rule. -/
def actMarketEngagement : String :=
  "Consider market engagement before publication"

/-- Action text of the dispute-lessons rule. -/
def actDisputeLessons : String :=
  "Review lessons from previous disputes"

/-- Action text of the vendor lock-in rule. -/
def actVendorLockIn : String :=
  "Check for unintentional vendor lock-in in technical specifications"

/-- `monthly_rec.get("procedure_type", "")` with the empty-dict fallback for an absent record. -/
def monthlyProcedure (monthly : Option MonthlyRec) : String :=
  match monthly with | some m => m.procedure_type | none => ""

/-- `monthly_rec.get("contract_type", "")` with the empty-dict fallback for an absent record. -/
def monthlyContract (monthly : Option MonthlyRec) : String :=
  match monthly with | some m => m.contract_type | none => ""

/-- `monthly_rec.get("sector", "")` with the empty-dict fallback for an absent record. -/
def monthlySector (monthly : Option MonthlyRec) : String :=
  match monthly with | some m => m.sector | none => ""

/-- `monthly_rec.get("estimated_value")` with the empty-dict fallback for an absent record. -/
def monthlyValue (monthly : Option MonthlyRec) : Option ℚ :=
  match monthly with | some m => m.estimated_value | none => none

/-- `feat.get("price_weight", 0)` where `feat` is the features dict of the
optional `feat_rec`. -/
def checklistPw (featRec : Option AppRec) : ℚ :=
  match featRec with | some fr => fr.features.price_weight | none => 0

/-- `feat.get("quality_weight", 0)` where `feat` is the features dict of
the optional `feat_rec`. -/
def checklistQw (featRec : Option AppRec) : ℚ :=
  match featRec with | some fr => fr.features.quality_weight | none => 0

/-- Value-based recommendation block (`src/app.py:1039-1048`). -/
def valueActions (value : Option ℚ) : List (String × String) :=
  if valGt value 5000000 then [("HIGH", actLegalReview)] else []

/-- Procedure-based recommendation block (`src/app.py:1050-1066`). -/
def procActions (procedure : String) (value : Option ℚ) :
    List (String × String) :=
  if procedure == "neg-w-call" then [("HIGH", actJustifyNegotiated)]
  else if (procedure == "neg-wo-call" || procedure == "oth-single")
      && valGt value 200000 then [("HIGH", actVerifyExemption)]
  else []

/-- Evaluation-criteria recommendation block (`src/app.py:1068-1088`). -/
def criteriaActions (pw qw : ℚ) (contract : String) (value : Option ℚ) :
    List (String × String) :=
  if isPriceOnlyChecklist pw qw && contract == "services"
      && valGt value 200000 then [("MEDIUM", actAddQuality)]
  else if decide (qw ≠ 0) && decide ((0.5 : ℚ) < qw) then
    [("MEDIUM", actQualityMethodology)]
  else []

/-- Narrative-model recommendation block (`src/app.py:1090-1119`); `llm`
is the `llm_scenario` text when the narrative result is present. -/
def llmActions : Option String → List (String × String)
  | none => []
  | some scenario =>
    (if containsCI scenario "qualification" || containsCI scenario "experience"
     then [("MEDIUM", actQualProportionality)] else []) ++
    (if containsCI scenario "brand" || containsCI scenario "specific"
     then [("HIGH", actReplaceBrand)] else []) ++
    (if containsCI scenario "subjective" || containsCI scenario "vague"
        || containsCI scenario "unclear"
     then [("MEDIUM", actClarifySubjective)] else [])

/-- Buyer-pattern recommendation block (`src/app.py:1121-1139`). -/
def buyerActions : Option BuyerProfile → List (String × String)
  | none => []
  | some p =>
    (if decide ((0.3 : ℚ) < p.single_bidder_rate)
     then [("LOW", actMarketEngagement)] else []) ++
    (if 3 ≤ p.vako_disputes then [("MEDIUM", actDisputeLessons)] else [])

/-- Sector-specific recommendation block (`src/app.py:1141-1149`). -/
def sectorActions (sector : String) (value : Option ℚ) :
    List (String × String) :=
  if sector == "IT" && valGt value 1000000 then [("LOW", actVendorLockIn)]
  else []

/-- The generation phase of `_generate_action_checklist`
(`src/app.py:1023-1149`), before deduplication: (priority, action text)
pairs in source order.  The free-prose rationale strings are
presentational and not embedded. -/
def generateRawActions (monthly : Option MonthlyRec) (featRec : Option AppRec)
    (llm : Option String) (profile : Option BuyerProfile) :
    List (String × String) :=
  valueActions (monthlyValue monthly) ++
  procActions (monthlyProcedure monthly) (monthlyValue monthly) ++
  criteriaActions (checklistPw featRec) (checklistQw featRec)
    (monthlyContract monthly) (monthlyValue monthly) ++
  llmActions llm ++
  buyerActions profile ++
  sectorActions (monthlySector monthly) (monthlyValue monthly)

/-- The deduplication loop of `_generate_action_checklist`
(`src/app.py:1151-1158`): keep the first occurrence of each action text. -/
def dedupActions : List (String × String) → List String → List (String × String)
  | [], _ => []
  | (p, a) :: rest, seen =>
    if a ∈ seen then dedupActions rest seen
    else (p, a) :: dedupActions rest (a :: seen)

/-- `_generate_action_checklist` (`src/app.py:1023-1158`). -/
def generateActionChecklist (monthly : Option MonthlyRec)
    (featRec : Option AppRec) (llm : Option String)
    (profile : Option BuyerProfile) : List (String × String) :=
  dedupActions (generateRawActions monthly featRec llm profile) []

/-- One result row of `_find_comparable_procurements`
(`src/app.py:985-994`). -/
structure CompRow where
  rhr_id : String
  title : String
  buyer : String
  value : Option ℚ
  disputed : Bool
  score : ℚ
  price_weight : ℚ
  quality_weight : ℚ
deriving DecidableEq

/-- Rank used for the descending sort on the boolean `disputed` column. -/
def compRank (b : Bool) : ℕ := if b then 1 else 0

/-- Sort relation of `_find_comparable_procurements`: disputed first,
then score descending (`a` may come before `b`). -/
def compLE (a b : CompRow) : Prop :=
  compRank b.disputed < compRank a.disputed ∨
    (compRank a.disputed = compRank b.disputed ∧ b.score ≤ a.score)

instance decCompLE : DecidableRel compLE := fun a b => by
  unfold compLE; infer_instance

/-- The per-candidate filter and row construction of
`_find_comparable_procurements` (`src/app.py:967-994`).  `titles` maps a
record id to its (title, buyer) display entry when one exists. -/
def mkCompRow (disputeIds : List String)
    (titles : List (String × String × String))
    (sector procedure : String) (value : Option ℚ) (excludeRhr : String)
    (pr : String × AppRec) : Option CompRow :=
  if pr.1 == excludeRhr then none
  else if !(sector == "") && !(pr.2.features.sector == sector) then none
  else if !(procedure == "") && !(pr.2.features.procedure == procedure) then none
  else if valTruthy value && !pr.2.features.value_missing
      && (decide (pr.2.features.estimated_value < value.getD 0 / 3)
          || decide (value.getD 0 * 3 < pr.2.features.estimated_value)) then none
  else
    some {
      rhr_id := pr.1,
      title := (match (titles.find? (fun t => t.1 == pr.1)).map (·.2) with
                | some ti => ti.1.take 80
                | none => ""),
      buyer := (match (titles.find? (fun t => t.1 == pr.1)).map (·.2) with
                | some ti => ti.2
                | none => pr.2.buyer_name),
      value := if !pr.2.features.value_missing
               then some pr.2.features.estimated_value else none,
      disputed := decide (pr.1 ∈ disputeIds),
      score := pr.2.stage1_probability,
      price_weight := pr.2.features.price_weight,
      quality_weight := pr.2.features.quality_weight }

/-- `_find_comparable_procurements` (`src/app.py:959-1000`): filter the
corpus, sort disputed-first then score-descending, keep the top 20.  The
`contract_type` parameter is accepted but, as in the source, never used
as a filter. -/
def findComparableProcurements (corpus : List (String × AppRec))
    (disputeIds : List String) (titles : List (String × String × String))
    (sector procedure contract_type : String) (value : Option ℚ)
    (excludeRhr : String) : List CompRow :=
  let rows := corpus.filterMap
    (mkCompRow disputeIds titles sector procedure value excludeRhr)
  (List.insertionSort compLE rows).take 20

/-- `SectorBenchmark` as emitted by `_compute_sector_benchmarks`
(`src/app.py:1189-1196`). -/
structure SectorBenchmark where
  total : ℕ
  dispute_rate : ℚ
  median_value : Option ℚ
  mean_value : Option ℚ
  price_only_rate : ℚ
  avg_quality_weight : ℚ
deriving DecidableEq

/-- `np.median`: middle of the sorted list, or the average of the two
middle elements for an even length.  (Only ever applied to a nonempty
list by the caller.) -/
def qmedian (l : List ℚ) : ℚ :=
  let s := List.insertionSort (· ≤ ·) l
  let n := s.length
  if n % 2 = 1 then s.getD (n / 2) 0
  else (s.getD (n / 2 - 1) 0 + s.getD (n / 2) 0) / 2

/-- `np.mean`. -/
def qmean (l : List ℚ) : ℚ := l.foldl (· + ·) 0 / (l.length : ℚ)

/-- `_compute_sector_benchmarks` (`src/app.py:1161-1196`).  The Python
function returns the empty dict `{}` when the sector has no matching
records; this is embedded as `none`. -/
def computeSectorBenchmarks (corpus : List (String × AppRec))
    (disputeIds : List String) (sector : String) : Option SectorBenchmark :=
  let matched := corpus.filter (fun pr => pr.2.features.sector == sector)
  let total := matched.length
  let dispute_count := (matched.filter (fun pr => decide (pr.1 ∈ disputeIds))).length
  let values := matched.filterMap
    (fun pr => if pr.2.features.value_missing then none
               else some pr.2.features.estimated_value)
  let price_only_count := (matched.filter
    (fun pr => isPriceOnlyBenchmark pr.2.features.price_weight
        pr.2.features.quality_weight)).length
  let qws := matched.filterMap
    (fun pr => if decide ((0 : ℚ) < pr.2.features.quality_weight)
               then some pr.2.features.quality_weight else none)
  if total = 0 then none
  else some {
    total := total,
    dispute_rate := if total ≠ 0 then (dispute_count : ℚ) / (total : ℚ) else 0,
    median_value := if values.isEmpty then none else some (qmedian values),
    mean_value := if values.isEmpty then none else some (qmean values),
    price_only_rate :=
      if total ≠ 0 then (price_only_count : ℚ) / (total : ℚ) else 0,
    avg_quality_weight := if qws.isEmpty then 0 else qmean qws }

/-- Fixture: a features entry whose sector is `health`, used to query the
benchmark aggregator for the distinct sector `IT`. -/
def healthRec : AppRec :=
  { features := { sector := "health", procedure := "open",
                  value_missing := true, estimated_value := 0,
                  price_weight := 1, quality_weight := 0 },
    buyer_name := "Tallinn", stage1_probability := 0 }

/-- Fixture: a buyer profile with a perfect price-only rate and several
disputes, but fewer than 5 recorded procurements. -/
def lowCountProfile : BuyerProfile :=
  { procurement_count := 4, single_bidder_rate := 0,
    price_only_rate := 1, vako_disputes := 5 }

/-- Fixture: a record for the low-count buyer profile. -/
def lowCountRow : ProcRow :=
  { price_weight := 50, quality_weight := 50, estimated_value := none,
    procedure_type := "open", contract_type := "services",
    buyer_name := "Tartu", rhr_id := "r77" }

/-- Fixture: monthly record for the checklist counterexample — an open
works procurement, so the price-only services branch cannot apply. -/
def worksMonthly : MonthlyRec :=
  { procedure_type := "open", contract_type := "works", sector := "health",
    estimated_value := none }

/-- Fixture: features entry with price weight 3 and quality weight 2, so
the quality weight exceeds 0.5 while the quality-to-total ratio is 0.4. -/
def weight32Rec : AppRec :=
  { features := { sector := "health", procedure := "open",
                  value_missing := true, estimated_value := 0,
                  price_weight := 3, quality_weight := 2 },
    buyer_name := "Tartu", stage1_probability := 0 }

/-- Fixture: features for the transparency counterexample — value
published, deadline known and exactly one day long. -/
def oneDayDeadline : PdfFeatures :=
  { price_weight := 0, quality_weight := 0, tenders_received := -1,
    has_green := false, has_social := false, has_innovation := false,
    value_missing := false, deadline_missing := false, deadline_days := 1 }

/-- `[0, 20]` bounds of the clamp applied at the end of every quality
dimension. -/
theorem clamp20_bounds (x : ℤ) : 0 ≤ clamp20 x ∧ clamp20 x ≤ 20 := by
  unfold clamp20; omega

/-- Competition & Access always lands in `[0, 20]`. -/
theorem competitionScore_bounds (f : PdfFeatures) (p : String) :
    0 ≤ competitionScore f p ∧ competitionScore f p ≤ 20 := by
  unfold competitionScore; exact clamp20_bounds _

/-- Criteria Quality always lands in `[0, 20]`. -/
theorem criteriaQualityScore_bounds (pw qw : ℚ) (ct : String) :
    0 ≤ criteriaQualityScore pw qw ct ∧ criteriaQualityScore pw qw ct ≤ 20 := by
  unfold criteriaQualityScore; exact clamp20_bounds _

/-- Strategic Value always lands in `[0, 20]`. -/
theorem strategicScore_bounds (f : PdfFeatures) :
    0 ≤ strategicScore f ∧ strategicScore f ≤ 20 := by
  unfold strategicScore; exact clamp20_bounds _

/-- Transparency always lands in `[0, 20]`. -/
theorem transparencyScore_bounds (f : PdfFeatures) :
    0 ≤ transparencyScore f ∧ transparencyScore f ≤ 20 := by
  unfold transparencyScore; exact clamp20_bounds _

/-- Integrity & Governance always lands in `[0, 20]`. -/
theorem integrityScore_bounds (flags : List (String × String × String))
    (bp : Option BuyerProfile) :
    0 ≤ integrityScore flags bp ∧ integrityScore flags bp ≤ 20 := by
  unfold integrityScore; exact clamp20_bounds _

/-- C8: for every input to the Quality Scoring Rubric, each of the five
dimension scores lies in `[0, 20]` and the overall score (their sum) lies
in `[0, 100]`. -/
theorem quality_assessment_scores_bounded (f : PdfFeatures)
    (procedure ct sector : String) (bp : Option BuyerProfile)
    (flags : List (String × String × String)) :
    (0 ≤ (computeQualityAssessment f procedure ct sector bp flags).competition ∧
       (computeQualityAssessment f procedure ct sector bp flags).competition ≤ 20) ∧
    (0 ≤ (computeQualityAssessment f procedure ct sector bp flags).criteria ∧
       (computeQualityAssessment f procedure ct sector bp flags).criteria ≤ 20) ∧
    (0 ≤ (computeQualityAssessment f procedure ct sector bp flags).strategic ∧
       (computeQualityAssessment f procedure ct sector bp flags).strategic ≤ 20) ∧
    (0 ≤ (computeQualityAssessment f procedure ct sector bp flags).transparency ∧
       (computeQualityAssessment f procedure ct sector bp flags).transparency ≤ 20) ∧
    (0 ≤ (computeQualityAssessment f procedure ct sector bp flags).integrity ∧
       (computeQualityAssessment f procedure ct sector bp flags).integrity ≤ 20) ∧
    (0 ≤ (computeQualityAssessment f procedure ct sector bp flags).overall ∧
       (computeQualityAssessment f procedure ct sector bp flags).overall ≤ 100) := by
  have h1 := competitionScore_bounds f procedure
  have h2 := criteriaQualityScore_bounds f.price_weight f.quality_weight ct
  have h3 := strategicScore_bounds f
  have h4 := transparencyScore_bounds f
  have h5 := integrityScore_bounds flags bp
  simp only [computeQualityAssessment]
  refine ⟨h1, h2, h3, h4, h5, ?_⟩
  omega

/-- C10: for all non-negative weights, the four inline price-only
predicates agree; in particular the benchmark's single-branch form equals
the two-disjunct form used by the rule engine, the checklist, and the
rubric (for `qw = 0` and `pw > 0` the ratio is `0 < 0.01`, so the first
disjunct is absorbed by the second). -/
theorem price_only_predicates_equivalent (pw qw : ℚ) (hpw : 0 ≤ pw)
    (hqw : 0 ≤ qw) :
    isPriceOnlyDetect pw qw = isPriceOnlyChecklist pw qw ∧
    isPriceOnlyChecklist pw qw = isPriceOnlyRubric pw qw ∧
    isPriceOnlyBenchmark pw qw = isPriceOnlyDetect pw qw := by
  refine ⟨rfl, rfl, ?_⟩
  unfold isPriceOnlyBenchmark isPriceOnlyDetect
  by_cases hq : qw = 0
  · subst hq
    by_cases hp : (0 : ℚ) < pw
    · simp [hp, zero_div]
      norm_num
    · simp [hp]
  · simp [hq]

/-- Witness for C10 at `pw = 1`, `qw = 0`. -/
theorem price_only_predicates_equivalent_witness :
    (0 : ℚ) ≤ 1 ∧ (0 : ℚ) ≤ 0 ∧
    (isPriceOnlyDetect 1 0 = isPriceOnlyChecklist 1 0 ∧
     isPriceOnlyChecklist 1 0 = isPriceOnlyRubric 1 0 ∧
     isPriceOnlyBenchmark 1 0 = isPriceOnlyDetect 1 0) :=
  ⟨by norm_num, by norm_num,
   price_only_predicates_equivalent 1 0 (by norm_num) (by norm_num)⟩

/-- C5: a single-source works record of value 6,000,000 triggers both the
non-competitive high-value rule and the single-source works-threshold
rule, independently of all other record fields. -/
theorem single_source_works_both_findings (pw qw : ℚ) (buyer rhr title : String)
    (profile : Option BuyerProfile) :
    Issue.non_competitive_high_value 6000000 ∈ detectRecordIssues
        { price_weight := pw, quality_weight := qw,
          estimated_value := some 6000000, procedure_type := "oth-single",
          contract_type := "works", buyer_name := buyer, rhr_id := rhr }
        profile title ∧
    Issue.single_source_works_threshold 6000000 ∈ detectRecordIssues
        { price_weight := pw, quality_weight := qw,
          estimated_value := some 6000000, procedure_type := "oth-single",
          contract_type := "works", buyer_name := buyer, rhr_id := rhr }
        profile title := by
  have hproc : procIssues
      { price_weight := pw, quality_weight := qw,
        estimated_value := some 6000000, procedure_type := "oth-single",
        contract_type := "works", buyer_name := buyer, rhr_id := rhr } =
      [Issue.non_competitive_high_value 6000000,
       Issue.single_source_works_threshold 6000000] := by
    unfold procIssues valGt
    norm_num
  unfold detectRecordIssues
  rw [hproc]
  constructor
  · exact List.mem_append_left _ (by simp)
  · exact List.mem_append_left _ (by simp)

/-- C6: with both weights zero and an open procedure, the rule engine
emits `no_criteria` (whatever the other fields), and the Criteria Quality
dimension scores at most 6. -/
theorem no_criteria_and_score_le_six (val : Option ℚ)
    (ctype buyer rhr title ct2 : String) (profile : Option BuyerProfile) :
    Issue.no_criteria ∈ detectRecordIssues
        { price_weight := 0, quality_weight := 0, estimated_value := val,
          procedure_type := "open", contract_type := ctype,
          buyer_name := buyer, rhr_id := rhr } profile title ∧
    criteriaQualityScore 0 0 ct2 ≤ 6 := by
  constructor
  · have hcrit : criteriaIssues
        { price_weight := 0, quality_weight := 0, estimated_value := val,
          procedure_type := "open", contract_type := ctype,
          buyer_name := buyer, rhr_id := rhr } = [Issue.no_criteria] := by
      unfold criteriaIssues isPriceOnlyDetect
      norm_num
    unfold detectRecordIssues
    rw [hcrit]
    simp
  · have : criteriaQualityScore 0 0 ct2 = 6 := by
      unfold criteriaQualityScore isPriceOnlyRubric clamp20
      norm_num
    omega

/-- C1 counterexample: for a sector with zero matching records the
aggregator returns the empty result (`none`, the Python empty dict) — it
does not return a benchmark carrying `total = 0`, `dispute_rate = 0` and
an absent median; those fields are omitted altogether. -/
theorem benchmark_zero_sector_counterexample :
    computeSectorBenchmarks [("r1", healthRec)] [] "IT" = none := by decide

/-- C1 amended: for every corpus and sector with zero matching records,
the Sector Benchmark Aggregator returns the empty result (no fields at
all) rather than crashing; the caller treats the absent benchmark as an
insufficient sample. -/
theorem benchmark_zero_sector_empty (corpus : List (String × AppRec))
    (disputeIds : List String) (sector : String)
    (h : ∀ pr ∈ corpus, pr.2.features.sector ≠ sector) :
    computeSectorBenchmarks corpus disputeIds sector = none := by
  unfold computeSectorBenchmarks
  have hfil : corpus.filter (fun pr => pr.2.features.sector == sector) = [] := by
    rw [List.filter_eq_nil_iff]
    intro a ha
    simpa using h a ha
  simp [hfil]

/-- Witness for C1's amended theorem on a one-record corpus of a
different sector. -/
theorem benchmark_zero_sector_empty_witness :
    (∀ pr ∈ [("r1", healthRec)], pr.2.features.sector ≠ "IT") ∧
    computeSectorBenchmarks [("r1", healthRec)] [] "IT" = none :=
  ⟨by decide, benchmark_zero_sector_empty [("r1", healthRec)] [] "IT" (by decide)⟩

/-- C4 counterexample: a record with its value published and a known
submission deadline of exactly 1 day.  The claim's formula gives
`clamp (12 + 3 - 3) = 12` (deadline known and shorter than 15 days), but
the code skips the deadline adjustment whenever the log-scale deadline
feature is not positive (deadline at most 1 day) and yields 15. -/
theorem transparency_one_day_counterexample :
    transparencyScore oneDayDeadline = 15 ∧ clamp20 (12 + 3 - 3) ≠ 15 := by
  decide

/-- C4 amended: the Transparency score is base 12, plus 3 if the value is
published and minus 4 otherwise, with the deadline adjustment (+3 for
at least 30 days, +1 for at least 15, otherwise -3) applied only when the
deadline is known AND longer than one day (the source's
`log_deadline_days > 0` guard); a known deadline of at most one day gets
no adjustment, exactly like an unknown one; the result is clamped to
`[0, 20]`. -/
theorem transparency_formula (f : PdfFeatures) :
    transparencyScore f =
      clamp20 ((if !f.value_missing then 12 + 3 else 12 - 4) +
        (if !f.deadline_missing ∧ (1 : ℚ) < f.deadline_days then
           (if (30 : ℚ) ≤ f.deadline_days then 3
            else if (15 : ℚ) ≤ f.deadline_days then 1
            else -3)
         else 0)) := by
  unfold transparencyScore
  rcases hv : f.value_missing <;> rcases hd : f.deadline_missing <;>
    by_cases h1 : (1 : ℚ) < f.deadline_days <;>
    by_cases h30 : (30 : ℚ) ≤ f.deadline_days <;>
    by_cases h15 : (15 : ℚ) ≤ f.deadline_days <;>
    simp [h1, h30, h15]

/-- Any finding of the procedure block carries one of its two rule ids. -/
theorem mem_procIssues_ruleId {r : ProcRow} {i : Issue} (h : i ∈ procIssues r) :
    i.ruleId = "non_competitive_high_value" ∨
      i.ruleId = "single_source_works_threshold" := by
  unfold procIssues at h
  rcases List.mem_append.1 h with h | h <;> (split at h <;> simp_all [Issue.ruleId])

/-- Any finding of the evaluation-criteria block carries one of its two
rule ids. -/
theorem mem_criteriaIssues_ruleId {r : ProcRow} {i : Issue}
    (h : i ∈ criteriaIssues r) :
    i.ruleId = "price_only_high_services" ∨ i.ruleId = "no_criteria" := by
  unfold criteriaIssues at h
  rcases List.mem_append.1 h with h | h <;> (split at h <;> simp_all [Issue.ruleId])

/-- Any finding of the brand-scan block carries the brand rule id. -/
theorem mem_brandIssues_ruleId {t : String} {i : Issue}
    (h : i ∈ brandIssues t) : i.ruleId = "brand_name_restriction" := by
  unfold brandIssues at h
  split at h
  · simp at h
  · split at h <;> simp_all [Issue.ruleId]

/-- Any finding of the buyer-pattern block carries one of its two rule
ids. -/
theorem mem_buyerIssues_ruleId {b : String} {pr : Option BuyerProfile}
    {i : Issue} (h : i ∈ buyerIssues b pr) :
    i.ruleId = "low_competition_buyer" ∨
      i.ruleId = "price_only_disputed_buyer" := by
  rcases pr with _ | p
  · simp [buyerIssues] at h
  · simp only [buyerIssues] at h
    split at h
    · rcases List.mem_append.1 h with h | h <;>
        (split at h <;> simp_all [Issue.ruleId])
    · simp at h

/-- Any finding of the data-quality block carries the missing-buyer rule
id. -/
theorem mem_dataIssues_ruleId {b : String} {i : Issue}
    (h : i ∈ dataIssues b) : i.ruleId = "missing_buyer" := by
  unfold dataIssues at h
  split at h <;> simp_all [Issue.ruleId]

/-- C2 counterexample: a buyer profile with price-only rate 1 and 5
disputes — both of the claim's conditions hold — but only 4 recorded
procurements; the rule does not fire. -/
theorem price_only_disputed_low_count_counterexample :
    ((0.95 : ℚ) ≤ lowCountProfile.price_only_rate ∧
      2 ≤ lowCountProfile.vako_disputes) ∧
    ∀ i ∈ detectRecordIssues lowCountRow (some lowCountProfile) "Road repair",
      i.ruleId ≠ "price_only_disputed_buyer" := by decide

/-- C2 amended: for every record with a buyer profile, the
`price_only_disputed_buyer` finding is emitted iff the profile has
procurement count at least 5 (the outer guard of the buyer-pattern block)
AND price-only rate at least 0.95 AND dispute count at least 2; these
three profile conditions are the only preconditions. -/
theorem price_only_disputed_buyer_iff (r : ProcRow) (p : BuyerProfile)
    (title : String) :
    (∃ i ∈ detectRecordIssues r (some p) title,
        i.ruleId = "price_only_disputed_buyer") ↔
      (5 ≤ p.procurement_count ∧ (0.95 : ℚ) ≤ p.price_only_rate ∧
        2 ≤ p.vako_disputes) := by
  constructor
  · rintro ⟨i, hi, hid⟩
    unfold detectRecordIssues at hi
    simp only [List.mem_append] at hi
    rcases hi with ((((hi | hi) | hi) | hi) | hi)
    · rcases mem_procIssues_ruleId hi with h | h <;>
        (rw [h] at hid; exact absurd hid (by decide))
    · rcases mem_criteriaIssues_ruleId hi with h | h <;>
        (rw [h] at hid; exact absurd hid (by decide))
    · rw [mem_brandIssues_ruleId hi] at hid
      exact absurd hid (by decide)
    · simp only [buyerIssues] at hi
      split at hi
      · next h5 =>
        rcases List.mem_append.1 hi with h2 | h2
        · split at h2 <;> simp_all [Issue.ruleId]
        · split at h2
          · next hcond =>
            simp only [List.mem_singleton] at h2
            simp only [Bool.and_eq_true, decide_eq_true_eq] at hcond
            exact ⟨h5, hcond.1, hcond.2⟩
          · simp at h2
      · simp at hi
    · rw [mem_dataIssues_ruleId hi] at hid
      exact absurd hid (by decide)
  · rintro ⟨h5, h95, h2⟩
    refine ⟨Issue.price_only_disputed_buyer r.buyer_name p.price_only_rate
      p.vako_disputes, ?_, rfl⟩
    unfold detectRecordIssues
    simp only [List.mem_append]
    refine Or.inl (Or.inr ?_)
    simp only [buyerIssues]
    rw [if_pos h5]
    refine List.mem_append_right _ ?_
    have hcond : (decide ((0.95 : ℚ) ≤ p.price_only_rate) &&
        decide (2 ≤ p.vako_disputes)) = true := by simp [h95, h2]
    rw [if_pos hcond]
    simp

/-- A row the candidate filter accepts comes from a corpus entry other
than the excluded record, and carries that entry's id. -/
theorem mkCompRow_some {disputeIds : List String}
    {titles : List (String × String × String)} {sector procedure : String}
    {value : Option ℚ} {excl : String} {pr : String × AppRec} {row : CompRow}
    (h : mkCompRow disputeIds titles sector procedure value excl pr = some row) :
    row.rhr_id = pr.1 ∧ pr.1 ≠ excl := by
  simp only [mkCompRow] at h
  split at h
  · exact absurd h (by simp)
  · next hne =>
    split at h
    · exact absurd h (by simp)
    · split at h
      · exact absurd h (by simp)
      · split at h
        · exact absurd h (by simp)
        · have hrow := Option.some.inj h
          refine ⟨by rw [← hrow], ?_⟩
          intro hc
          exact hne (by simp [hc])

/-- C9: the Comparable Match Finder never returns the queried record's
own id, and never returns more than 20 matches, for every corpus and
query. -/
theorem comparable_no_self_and_capped (corpus : List (String × AppRec))
    (disputeIds : List String) (titles : List (String × String × String))
    (sector procedure ct : String) (value : Option ℚ) (excl : String) :
    (∀ row ∈ findComparableProcurements corpus disputeIds titles sector
        procedure ct value excl, row.rhr_id ≠ excl) ∧
    (findComparableProcurements corpus disputeIds titles sector procedure ct
        value excl).length ≤ 20 := by
  constructor
  · intro row hrow
    unfold findComparableProcurements at hrow
    have h1 := List.mem_of_mem_take hrow
    have h2 : row ∈ corpus.filterMap
        (mkCompRow disputeIds titles sector procedure value excl) :=
      (List.perm_insertionSort compLE _).mem_iff.mp h1
    rcases List.mem_filterMap.1 h2 with ⟨pr, _, hmk⟩
    have hid := mkCompRow_some hmk
    rw [hid.1]
    exact hid.2
  · unfold findComparableProcurements
    simp only [List.length_take]
    omega

/-- The number of brand findings of a record equals the number produced
by the brand-scan block alone: no other rule emits the brand rule id. -/
theorem countP_brand_eq_brand_block (r : ProcRow) (profile : Option BuyerProfile)
    (title : String) :
    (detectRecordIssues r profile title).countP
        (fun i => i.ruleId == "brand_name_restriction") =
      (brandIssues title).countP
        (fun i => i.ruleId == "brand_name_restriction") := by
  unfold detectRecordIssues
  simp only [List.countP_append]
  have h1 : (procIssues r).countP
      (fun i => i.ruleId == "brand_name_restriction") = 0 :=
    List.countP_eq_zero.2 (fun i hi => by
      rcases mem_procIssues_ruleId hi with h | h <;> simp [h])
  have h2 : (criteriaIssues r).countP
      (fun i => i.ruleId == "brand_name_restriction") = 0 :=
    List.countP_eq_zero.2 (fun i hi => by
      rcases mem_criteriaIssues_ruleId hi with h | h <;> simp [h])
  have h4 : (buyerIssues r.buyer_name profile).countP
      (fun i => i.ruleId == "brand_name_restriction") = 0 :=
    List.countP_eq_zero.2 (fun i hi => by
      rcases mem_buyerIssues_ruleId hi with h | h <;> simp [h])
  have h5 : (dataIssues r.buyer_name).countP
      (fun i => i.ruleId == "brand_name_restriction") = 0 :=
    List.countP_eq_zero.2 (fun i hi => by simp [mem_dataIssues_ruleId hi])
  omega

/-- C7: for the title "Procurement for SAP licences" — and for its
extension that also contains "Oracle" — the rule engine emits exactly one
`brand_name_restriction` finding, quoting the matched text "SAP" (the
scan stops at the first matching catalog pattern), for every record and
buyer profile. -/
theorem brand_scan_sap_exactly_one (r : ProcRow) (profile : Option BuyerProfile) :
    ((detectRecordIssues r profile "Procurement for SAP licences").countP
        (fun i => i.ruleId == "brand_name_restriction") = 1 ∧
      Issue.brand_name_restriction "SAP" "Procurement for SAP licences" ∈
        detectRecordIssues r profile "Procurement for SAP licences") ∧
    ((detectRecordIssues r profile
          "Procurement for SAP and Oracle licences").countP
        (fun i => i.ruleId == "brand_name_restriction") = 1 ∧
      Issue.brand_name_restriction "SAP"
          "Procurement for SAP and Oracle licences" ∈
        detectRecordIssues r profile
          "Procurement for SAP and Oracle licences") := by
  refine ⟨⟨?_, ?_⟩, ?_, ?_⟩
  · rw [countP_brand_eq_brand_block]
    decide
  · unfold detectRecordIssues
    simp only [List.mem_append]
    exact Or.inl (Or.inl (Or.inr (by decide)))
  · rw [countP_brand_eq_brand_block]
    decide
  · unfold detectRecordIssues
    simp only [List.mem_append]
    exact Or.inl (Or.inl (Or.inr (by decide)))

/-- Deduplication only drops elements: anything it returns was generated. -/
theorem mem_of_mem_dedupActions {l : List (String × String)}
    {seen : List String} {x : String × String}
    (h : x ∈ dedupActions l seen) : x ∈ l := by
  induction l generalizing seen with
  | nil => simp [dedupActions] at h
  | cons hd tl ih =>
    rcases hd with ⟨p, a⟩
    simp only [dedupActions] at h
    split at h
    · exact List.mem_cons_of_mem _ (ih h)
    · rcases List.mem_cons.1 h with rfl | h'
      · exact List.mem_cons_self _ _
      · exact List.mem_cons_of_mem _ (ih h')

/-- A generated action whose text occurs only once, and is not yet seen,
survives deduplication. -/
theorem mem_dedupActions_of_unique {l : List (String × String)}
    {seen : List String} {x : String × String} (hx : x ∈ l)
    (huniq : ∀ y ∈ l, y.2 = x.2 → y = x) (hseen : x.2 ∉ seen) :
    x ∈ dedupActions l seen := by
  induction l generalizing seen with
  | nil => simp at hx
  | cons hd tl ih =>
    rcases hd with ⟨p, a⟩
    simp only [dedupActions]
    split
    · next hmem =>
      rcases List.mem_cons.1 hx with rfl | hx'
      · exact absurd hmem hseen
      · exact ih hx' (fun y hy => huniq y (List.mem_cons_of_mem _ hy)) hseen
    · next hmem =>
      rcases List.mem_cons.1 hx with rfl | hx'
      · exact List.mem_cons_self _ _
      · by_cases hax : a = x.2
        · have he : (p, a) = x := huniq (p, a) (List.mem_cons_self _ _) hax
          exact he ▸ List.mem_cons_self _ _
        · refine List.mem_cons_of_mem _
            (ih hx' (fun y hy => huniq y (List.mem_cons_of_mem _ hy)) ?_)
          simp only [List.mem_cons, not_or]
          exact ⟨fun hc => hax hc.symm, hseen⟩

/-- The value block only ever emits the legal-review action. -/
theorem mem_valueActions {v : Option ℚ} {y : String × String}
    (h : y ∈ valueActions v) : y = ("HIGH", actLegalReview) := by
  unfold valueActions at h
  split at h <;> simp_all

/-- The procedure block only ever emits its two actions. -/
theorem mem_procActions {p : String} {v : Option ℚ} {y : String × String}
    (h : y ∈ procActions p v) :
    y = ("HIGH", actJustifyNegotiated) ∨ y = ("HIGH", actVerifyExemption) := by
  unfold procActions at h
  split at h
  · simp_all
  · split at h <;> simp_all

/-- The criteria block only ever emits its two actions. -/
theorem mem_criteriaActions {pw qw : ℚ} {c : String} {v : Option ℚ}
    {y : String × String} (h : y ∈ criteriaActions pw qw c v) :
    y = ("MEDIUM", actAddQuality) ∨ y = ("MEDIUM", actQualityMethodology) := by
  unfold criteriaActions at h
  split at h
  · simp_all
  · split at h <;> simp_all

/-- The narrative block only ever emits its three actions. -/
theorem mem_llmActions {llm : Option String} {y : String × String}
    (h : y ∈ llmActions llm) :
    y = ("MEDIUM", actQualProportionality) ∨ y = ("HIGH", actReplaceBrand) ∨
      y = ("MEDIUM", actClarifySubjective) := by
  rcases llm with _ | scenario
  · simp [llmActions] at h
  · simp only [llmActions] at h
    rcases List.mem_append.1 h with h' | h'
    · rcases List.mem_append.1 h' with h'' | h''
      · split at h'' <;> simp_all
      · split at h'' <;> simp_all
    · split at h' <;> simp_all

/-- The buyer block only ever emits its two actions. -/
theorem mem_buyerActions {pr : Option BuyerProfile} {y : String × String}
    (h : y ∈ buyerActions pr) :
    y = ("LOW", actMarketEngagement) ∨ y = ("MEDIUM", actDisputeLessons) := by
  rcases pr with _ | p
  · simp [buyerActions] at h
  · simp only [buyerActions] at h
    rcases List.mem_append.1 h with h' | h' <;> (split at h' <;> simp_all)

/-- The sector block only ever emits the vendor lock-in action. -/
theorem mem_sectorActions {s : String} {v : Option ℚ} {y : String × String}
    (h : y ∈ sectorActions s v) : y = ("LOW", actVendorLockIn) := by
  unfold sectorActions at h
  split at h <;> simp_all

/-- When the price-only services branch is off, the criteria block emits
the scoring-methodology action exactly when the quality weight itself
exceeds 0.5. -/
theorem a5_mem_criteriaActions_iff (pw qw : ℚ) (c : String) (v : Option ℚ)
    (h : ¬(isPriceOnlyChecklist pw qw && c == "services"
        && valGt v 200000) = true) :
    (("MEDIUM", actQualityMethodology) ∈ criteriaActions pw qw c v) ↔
      (qw ≠ 0 ∧ (0.5 : ℚ) < qw) := by
  unfold criteriaActions
  rw [if_neg h]
  split
  · next hc =>
    simp only [Bool.and_eq_true, decide_eq_true_eq] at hc
    simp only [List.mem_singleton]
    exact iff_of_true trivial hc
  · next hc =>
    refine iff_of_false (by simp) ?_
    rintro ⟨h1, h2⟩
    exact hc (by simp [h1, h2])

/-- C3 counterexample: price weight 3 and quality weight 2 on an open
works procurement — the price-only branch is off and the
quality-to-total ratio is 0.4, not above 0.5 — yet the MEDIUM
scoring-methodology action is emitted (the code compares the raw quality
weight, 2, against 0.5). -/
theorem quality_methodology_ratio_counterexample :
    (("MEDIUM", actQualityMethodology) ∈
        generateActionChecklist (some worksMonthly) (some weight32Rec)
          none none) ∧
    ¬((0.5 : ℚ) < checklistQw (some weight32Rec) /
        (checklistPw (some weight32Rec) + checklistQw (some weight32Rec))) ∧
    (isPriceOnlyChecklist (checklistPw (some weight32Rec))
        (checklistQw (some weight32Rec))
      && (monthlyContract (some worksMonthly) == "services")
      && valGt (monthlyValue (some worksMonthly)) 200000) = false := by
  decide

/-- C3 amended: whenever the price-only services branch does not apply,
the Recommendation Synthesizer emits the MEDIUM action "Ensure quality
criteria have detailed scoring methodology" exactly when the quality
weight itself is nonzero and greater than 0.5 — the code compares the raw
quality weight against 0.5, not the quality-to-total-weight ratio. -/
theorem quality_methodology_iff (monthly : Option MonthlyRec)
    (featRec : Option AppRec) (llm : Option String)
    (profile : Option BuyerProfile)
    (h : ¬(isPriceOnlyChecklist (checklistPw featRec) (checklistQw featRec)
        && (monthlyContract monthly == "services")
        && valGt (monthlyValue monthly) 200000) = true) :
    (("MEDIUM", actQualityMethodology) ∈
        generateActionChecklist monthly featRec llm profile) ↔
      (checklistQw featRec ≠ 0 ∧ (0.5 : ℚ) < checklistQw featRec) := by
  unfold generateActionChecklist
  constructor
  · intro hmem
    have hraw := mem_of_mem_dedupActions hmem
    unfold generateRawActions at hraw
    simp only [List.mem_append] at hraw
    rcases hraw with (((((hr | hr) | hr) | hr) | hr) | hr)
    · exact absurd (mem_valueActions hr) (by decide)
    · rcases mem_procActions hr with h' | h' <;> exact absurd h' (by decide)
    · exact (a5_mem_criteriaActions_iff _ _ _ _ h).1 hr
    · rcases mem_llmActions hr with h' | h' | h' <;> exact absurd h' (by decide)
    · rcases mem_buyerActions hr with h' | h' <;> exact absurd h' (by decide)
    · exact absurd (mem_sectorActions hr) (by decide)
  · intro hq
    apply mem_dedupActions_of_unique
    · unfold generateRawActions
      refine List.mem_append.2 (Or.inl (List.mem_append.2 (Or.inl
        (List.mem_append.2 (Or.inl (List.mem_append.2 (Or.inr ?_)))))))
      exact (a5_mem_criteriaActions_iff _ _ _ _ h).2 hq
    · intro y hy hy2
      unfold generateRawActions at hy
      simp only [List.mem_append] at hy
      rcases hy with (((((hr | hr) | hr) | hr) | hr) | hr)
      · rw [mem_valueActions hr] at hy2
        exact absurd hy2 (by decide)
      · rcases mem_procActions hr with h' | h' <;>
          (rw [h'] at hy2; exact absurd hy2 (by decide))
      · rcases mem_criteriaActions hr with h' | h'
        · rw [h'] at hy2
          exact absurd hy2 (by decide)
        · exact h'
      · rcases mem_llmActions hr with h' | h' | h' <;>
          (rw [h'] at hy2; exact absurd hy2 (by decide))
      · rcases mem_buyerActions hr with h' | h' <;>
          (rw [h'] at hy2; exact absurd hy2 (by decide))
      · rw [mem_sectorActions hr] at hy2
        exact absurd hy2 (by decide)
    · simp

/-- Witness for C3's amended theorem: on the counterexample fixture the
branch hypothesis holds and the action is emitted with quality weight
2 above 0.5. -/
theorem quality_methodology_iff_witness :
    ¬(isPriceOnlyChecklist (checklistPw (some weight32Rec))
        (checklistQw (some weight32Rec))
      && (monthlyContract (some worksMonthly) == "services")
      && valGt (monthlyValue (some worksMonthly)) 200000) = true ∧
    ((("MEDIUM", actQualityMethodology) ∈
        generateActionChecklist (some worksMonthly) (some weight32Rec)
          none none) ↔
      (checklistQw (some weight32Rec) ≠ 0 ∧
        (0.5 : ℚ) < checklistQw (some weight32Rec))) :=
  ⟨by decide, quality_methodology_iff (some worksMonthly) (some weight32Rec)
    none none (by decide)⟩
